import Mathlib

/-!
Verification development for the `oidcauth` Go package
(src/oidcauth/oidcauth.go).  The package implements a browser-based
OIDC authorization-code login with a loopback callback listener, an
OS-keyring cache for refresh tokens, and a per-client mutex around the
login attempt.

The definitions below are a shallow embedding of the Go source:
pure control flow is translated directly; external capabilities
(the OS keyring backend, the browser launcher, the network listener,
the token-exchange endpoint, the incoming HTTP requests) are passed in
as explicit parameters, and the process-global `http.DefaultServeMux`
is threaded through `BrowserLogin` as explicit state.
-/

namespace OidcAuth

/-- The `oauth2.Token` values as used by this package: the only field the
package itself reads (`StoreTokenInCache`) or writes
(`getTokenFromKeyring`) is `RefreshToken`; tokens produced by the code
exchange are passed through opaquely, so one field suffices for a
faithful model of every access the source makes. -/
structure OAuth2Token where
  refreshToken : String
  deriving DecidableEq, Repr

/-- Errors produced by the `zalando/go-keyring` capability: `keyring.Get`
returns `keyring.ErrNotFound` when no secret is stored for the key, or a
backend error otherwise (spec section 4.4: `NotFound` vs `StoreError`). -/
inductive KeyringError where
  | notFound
  | storeError (msg : String)
  deriving DecidableEq, Repr

/-- The OS credential store, modelled (as claim C9 itself directs) as a
per-key map from (service, account) pairs to secrets.  The backend is an
external collaborator of the repository (spec section 1); the repository
only issues single get/set/delete calls against it. -/
abbrev KeyringStore := List ((String × String) × String)

/-- `keyring.Get service account` over the map model: the most recently
set binding for the key, or `ErrNotFound` when the key is absent. -/
def keyringGet : KeyringStore → String → String → Except KeyringError String
  | [], _, _ => .error .notFound
  | e :: rest, service, account =>
      if e.1 = (service, account) then .ok e.2 else keyringGet rest service account

/-- `keyring.Set service account secret` over the map model: the new
binding shadows any previous one for the same key. -/
def keyringSet (st : KeyringStore) (service account secret : String) : KeyringStore :=
  ((service, account), secret) :: st

/-- `keyring.Delete service account` over the map model: every binding
for the key is removed. -/
def keyringDelete : KeyringStore → String → String → KeyringStore
  | [], _, _ => []
  | e :: rest, service, account =>
      if e.1 = (service, account) then keyringDelete rest service account
      else e :: keyringDelete rest service account

/-- The `oauth2.Config` fields this package touches: `ClientID`,
`Scopes` (a Go slice, i.e. a list) and `RedirectURL` (zero value `""`
until a login attempt assigns it).  The `Endpoint` field is filled from
the external discovery capability and never inspected by the package,
so it is not part of the model. -/
structure OAuth2Config where
  clientID : String
  scopes : List String
  redirectURL : String
  deriving DecidableEq, Repr

/-- The `Client` struct of the package (spec: "Session"): issuer and
clientID identity plus the embedded `oauth2.Config`.  The `sync.Mutex`
field and the `*oidc.Provider` are modelled where they are used (the
mutex in the two-attempt interleaving model below, the provider as the
discovery capability parameter of `NewWithContext`). -/
structure Client where
  issuer : String
  clientID : String
  oauth2Config : OAuth2Config
  deriving DecidableEq, Repr

/-- `strings.TrimRight issuer "/"`: remove every trailing `'/'`
character. -/
def trimTrailingSlashes (s : String) : String :=
  ⟨(s.data.reverse.dropWhile (· == '/')).reverse⟩

/-- `NewWithContext ctx issuer clientID scopes...` of the source.
`discoveryOk` stands for the external `oidc.NewProvider` call (it
succeeds or fails for the trimmed issuer; its endpoint payload is never
inspected by the package).  On success the source appends
`oidc.ScopeOpenID = "openid"` to the caller's scope slice and stores the
trimmed issuer. -/
def NewWithContext (discoveryOk : String → Bool) (issuer clientID : String)
    (scopes : List String) : Option Client :=
  let issuer := trimTrailingSlashes issuer
  if discoveryOk issuer then
    some { issuer := issuer, clientID := clientID,
           oauth2Config :=
             { clientID := clientID, scopes := scopes ++ ["openid"], redirectURL := "" } }
  else
    none

/-- A callback HTTP request as the handler sees it: the `state` and
`code` query parameters (`r.URL.Query().Get` returns `""` for a missing
parameter, so absence is the value `""`). -/
structure CallbackRequest where
  state : String
  code : String
  deriving DecidableEq, Repr

/-- The error values the callback handler can record into its captured
`httpError` variable. -/
inductive CallbackError where
  | stateMismatch
  | exchangeFailed (msg : String)
  deriving DecidableEq, Repr

/-- The variables captured by the callback closure in `BrowserLogin`:
`var httpError error` and `var token *oauth2.Token`, both starting at
their Go zero values (`nil`). -/
structure HandlerState where
  httpError : Option CallbackError
  token : Option OAuth2Token
  deriving DecidableEq, Repr

/-- The body of the closure registered for `/callback` (source lines
145-158), as a function of the attempt's state string and the external
token-exchange capability.  It returns the updated captured variables
together with the list of codes passed to `oauth2Config.Exchange` by
this request (so that "the exchange is invoked" is observable):
a mismatched state records `stateMismatch` and performs no exchange;
a matching state exchanges the request's `code`, recording either the
token or the exchange failure. -/
def handleCallback (attemptState : String)
    (exchange : String → Except String OAuth2Token)
    (hs : HandlerState) (req : CallbackRequest) : HandlerState × List String :=
  if req.state ≠ attemptState then
    ({ hs with httpError := some .stateMismatch }, [])
  else
    match exchange req.code with
    | .error e => ({ hs with httpError := some (.exchangeFailed e) }, [req.code])
    | .ok t => ({ hs with token := some t }, [req.code])

/-- `http.Serve listener nil` dispatching to the registered `/callback`
handler: the source never closes the listener and never shuts the server
down, so the server keeps accepting requests; this function folds the
handler over the whole incoming request sequence, accumulating the codes
passed to the exchange. -/
def serveRequests (attemptState : String)
    (exchange : String → Except String OAuth2Token) :
    HandlerState → List CallbackRequest → HandlerState × List String
  | hs, [] => (hs, [])
  | hs, r :: rs =>
      let step1 := handleCallback attemptState exchange hs r
      let rest := serveRequests attemptState exchange step1.1 rs
      (rest.1, step1.2 ++ rest.2)

/-- The environment of one `BrowserLogin` call: the result of
`net.Listen "tcp" "localhost:0"` (`none` = bind failure, `some port` =
the OS-assigned ephemeral port), the result of `openBrowser`, the
`uuid.New()` state string generated for the attempt, the external
token-exchange capability, and the sequence of HTTP requests that reach
`/callback` while the server is serving. -/
structure LoginEnv where
  bindPort : Option Nat
  browserOk : Bool
  state : String
  exchange : String → Except String OAuth2Token
  requests : List CallbackRequest

/-- How a `BrowserLogin` call ends.  `listenerBindFailed` and
`browserLaunchFailed` are the two early `return nil, err` paths.
`panicked` is `http.HandleFunc` panicking on a duplicate `/callback`
registration in `http.DefaultServeMux`.  `blocked` records that the call
never returns: the source never closes the listener and `http.Serve`
only returns once `Accept` fails, so after processing the incoming
requests (final captured state and exchange calls recorded here) the
call is still blocked inside `http.Serve`. -/
inductive LoginOutcome where
  | listenerBindFailed
  | browserLaunchFailed
  | panicked
  | blocked (hs : HandlerState) (exchangeCalls : List String)
  deriving DecidableEq, Repr

/-- Observable effects of one `BrowserLogin` call: the process-global
`http.DefaultServeMux` afterwards (list of registered patterns), whether
the attempt's listener socket is still open when the call ends (the
source contains no `listener.Close()` on any path), whether the
`defer c.m.Unlock()` has run, and the client with the `RedirectURL`
assignment applied. -/
structure LoginEffects where
  mux : List String
  listenerOpen : Bool
  lockReleased : Bool
  clientAfter : Client

/-- `Client.BrowserLogin` (source lines 124-169) as a function of the
call's environment and of the process-global `http.DefaultServeMux`
contents before the call.  Control flow follows the source: lock
(modelled separately as the two-attempt interleaving below), bind the
listener (fail: return), set `RedirectURL` from the bound port, generate
the state, open the browser (fail: return; the listener stays open),
register `/callback` via `http.HandleFunc` on the global mux (panic on a
duplicate pattern), then `http.Serve` — which never returns because
nothing ever closes the listener, leaving the call blocked with the
mutex still held. -/
def BrowserLogin (c : Client) (env : LoginEnv) (mux : List String) :
    LoginOutcome × LoginEffects :=
  match env.bindPort with
  | none =>
      (.listenerBindFailed,
        { mux := mux, listenerOpen := false, lockReleased := true, clientAfter := c })
  | some port =>
      let redirect := "http://localhost:" ++ toString port ++ "/callback"
      let c' : Client :=
        { c with oauth2Config := { c.oauth2Config with redirectURL := redirect } }
      if env.browserOk then
        if "/callback" ∈ mux then
          -- http.HandleFunc on http.DefaultServeMux panics on a duplicate
          -- pattern; Go runs deferred calls (the mutex unlock) while the
          -- panic unwinds.
          (.panicked,
            { mux := mux, listenerOpen := true, lockReleased := true, clientAfter := c' })
        else
          let served := serveRequests env.state env.exchange ⟨none, none⟩ env.requests
          (.blocked served.1 served.2,
            { mux := "/callback" :: mux, listenerOpen := true, lockReleased := false,
              clientAfter := c' })
      else
        (.browserLaunchFailed,
          { mux := mux, listenerOpen := true, lockReleased := true, clientAfter := c' })

/-- `getTokenFromKeyring issuer clientID` (source lines 83-92) as a
function of the `keyring.Get` result it receives from the backend.  The
Go function returns the pair `(*oauth2.Token, error)`: `(nil, err)` on
any backend error, and otherwise a non-nil token holding the stored
refresh token byte-for-byte.  It never returns `(nil, nil)`. -/
def getTokenFromKeyring (getResult : Except KeyringError String) :
    Option OAuth2Token × Option KeyringError :=
  match getResult with
  | .error e => (none, some e)
  | .ok refreshToken => (some { refreshToken := refreshToken }, none)

/-- Errors surfaced by `LoginWithCache`. -/
inductive LoginWithCacheError where
  | keyringFailed (e : KeyringError)
  | browserFailed (msg : String)
  deriving DecidableEq, Repr

/-- `Client.LoginWithCache` (source lines 67-81) as a function of the
`keyring.Get` result and of what a `BrowserLogin` call would return.
The returned token stands for the `http.Client` the source builds from
it (`oauth2Config.Client httpClientContext token`); the boolean records
whether `BrowserLogin` was invoked.  Source control flow: on a keyring
error return it; only when the token is `nil` *and* the error was `nil`
fall back to the browser login — a combination `getTokenFromKeyring`
never produces. -/
def LoginWithCache (getResult : Except KeyringError String)
    (browserResult : Except String OAuth2Token) :
    Except LoginWithCacheError OAuth2Token × Bool :=
  match getTokenFromKeyring getResult with
  | (_, some e) => (.error (.keyringFailed e), false)
  | (tokenOpt, none) =>
      match tokenOpt with
      | none =>
          match browserResult with
          | .error msg => (.error (.browserFailed msg), true)
          | .ok t => (.ok t, true)
      | some t => (.ok t, false)

/-- The transport of the `http.Client` handed to `StoreTokenInCache`:
either the managed `*oauth2.Transport` (whose `Source.Token()` call
yields a token or an error) or any other `http.RoundTripper`. -/
inductive HTTPTransport where
  | oauth2Transport (source : Except String OAuth2Token)
  | otherTransport

/-- Errors returned by `StoreTokenInCache`. -/
inductive StoreTokenError where
  | errNotOAuth2Transport
  | tokenSourceFailed (msg : String)
  deriving DecidableEq, Repr

/-- `Client.StoreTokenInCache` (source lines 100-111): the type
assertion `client.Transport.(*oauth2.Transport)` fails with
`ErrNotOAuth2Transport` for any other transport; otherwise the current
token is pulled from the transport's source and its refresh token is
written to the keyring under service = issuer, account = clientID.
Returns the result together with the keyring contents afterwards. -/
def StoreTokenInCache (c : Client) (transport : HTTPTransport)
    (st : KeyringStore) : Except StoreTokenError Unit × KeyringStore :=
  match transport with
  | .otherTransport => (.error .errNotOAuth2Transport, st)
  | .oauth2Transport source =>
      match source with
      | .error e => (.error (.tokenSourceFailed e), st)
      | .ok token => (.ok (), keyringSet st c.issuer c.clientID token.refreshToken)

/-- `Client.DeleteTokenFromKeyring` (source lines 114-116): delegate to
`keyring.Delete issuer clientID`; returns the keyring contents
afterwards. -/
def DeleteTokenFromKeyring (c : Client) (st : KeyringStore) : KeyringStore :=
  keyringDelete st c.issuer c.clientID

/-! ### Two concurrent `BrowserLogin` calls on one `Client`

An interleaving model of two goroutines executing `BrowserLogin` on the
same `Client`, for the concurrency claims about the `sync.Mutex` field.
Each goroutine advances through the function's control points in source
order; steps are atomic and a scheduler picks which goroutine moves. -/

/-- Control points of one `BrowserLogin` call, in source order:
before `c.m.Lock()`; holding the lock before `net.Listen`; listener
bound, before `openBrowser`; blocked forever inside `http.Serve`
(nothing closes the listener, so `Serve` never returns and the deferred
unlock never runs); returned.  The early-return paths (bind failure,
browser-launch failure) go straight to `done`, running the deferred
unlock. -/
inductive AttemptPC where
  | start
  | locked
  | bound
  | serving
  | done
  deriving DecidableEq, Repr, Fintype

/-- Per-goroutine environment choices: does `net.Listen` succeed, does
`openBrowser` succeed. -/
structure ProcEnv where
  bindOk : Bool
  browserOk : Bool
  deriving DecidableEq, Repr, Fintype

/-- Joint state of two goroutines A (`false`) and B (`true`) running
`BrowserLogin` on one `Client`: each goroutine's control point, the
current owner of the client's mutex, and whether each goroutine's
listener socket is currently open (the source never closes a listener,
so these flags are never reset). -/
structure TwoLoginConfig where
  pcA : AttemptPC
  pcB : AttemptPC
  lockOwner : Option Bool
  listenerA : Bool
  listenerB : Bool
  deriving DecidableEq, Repr, Fintype

/-- The control point of goroutine `i`. -/
def getPc (c : TwoLoginConfig) (i : Bool) : AttemptPC :=
  cond i c.pcB c.pcA

/-- Move goroutine `i` to control point `p`. -/
def setPc (c : TwoLoginConfig) (i : Bool) (p : AttemptPC) : TwoLoginConfig :=
  cond i { c with pcB := p } { c with pcA := p }

/-- Record that goroutine `i` has bound its listener. -/
def setListener (c : TwoLoginConfig) (i : Bool) : TwoLoginConfig :=
  cond i { c with listenerB := true } { c with listenerA := true }

/-- One atomic step of goroutine `i` (with its environment `pe`), or
`none` when the goroutine cannot move: `c.m.Lock()` blocks while the
other goroutine owns the mutex, a goroutine inside `http.Serve` is
blocked forever, and a returned goroutine is finished. -/
def step (pe : ProcEnv) (c : TwoLoginConfig) (i : Bool) : Option TwoLoginConfig :=
  match getPc c i with
  | .start =>
      match c.lockOwner with
      | none => some { setPc c i .locked with lockOwner := some i }
      | some _ => none
  | .locked =>
      if pe.bindOk then
        some (setListener (setPc c i .bound) i)
      else
        -- return nil, "unable to start localhost listener"; deferred unlock runs
        some { setPc c i .done with lockOwner := none }
  | .bound =>
      if pe.browserOk then
        some (setPc c i .serving)
      else
        -- return nil, "failed at opening browser"; deferred unlock runs,
        -- but the bound listener is never closed
        some { setPc c i .done with lockOwner := none }
  | .serving => none
  | .done => none

/-- Run a schedule (a list of goroutine identifiers) from a
configuration, failing when the scheduled goroutine cannot move. -/
def runTrace (env : Bool → ProcEnv) : List Bool → TwoLoginConfig → Option TwoLoginConfig
  | [], c => some c
  | i :: is, c =>
      match step (env i) c i with
      | none => none
      | some c' => runTrace env is c'

/-- Both goroutines before their calls; the mutex free; no listeners. -/
def initTwoLogin : TwoLoginConfig :=
  { pcA := .start, pcB := .start, lockOwner := none, listenerA := false, listenerB := false }

/-- A configuration reachable from `initTwoLogin` under some schedule. -/
def Reachable (env : Bool → ProcEnv) (c : TwoLoginConfig) : Prop :=
  ∃ tr : List Bool, runTrace env tr initTwoLogin = some c

/-- Goroutine `i`'s login attempt is in flight: it has entered the
locked critical section and has not returned. -/
abbrev inFlight (c : TwoLoginConfig) (i : Bool) : Prop :=
  getPc c i ≠ .start ∧ getPc c i ≠ .done

/-- Mutex-ownership invariant: an in-flight attempt owns the mutex. -/
abbrev LockInv (c : TwoLoginConfig) : Prop :=
  ∀ i : Bool, inFlight c i → c.lockOwner = some i

/-- Step-local check used to establish `LockInv` by exhaustive
evaluation over the finite configuration space. -/
def stepKeepsInv (pe : ProcEnv) (c : TwoLoginConfig) (i : Bool) : Bool :=
  match step pe c i with
  | none => true
  | some c' => decide (LockInv c')

/-! ### Concrete example inputs -/

/-- A concrete exchange capability: succeeds on every code, yielding a
token whose refresh token records the code. -/
def exchangeEx : String → Except String OAuth2Token :=
  fun code => .ok { refreshToken := "refresh-" ++ code }

/-- The example client of the spec, as built by
`NewWithContext _ "https://example.com/" "abc" ["profile"]`. -/
def clientEx : Client :=
  { issuer := "https://example.com", clientID := "abc",
    oauth2Config :=
      { clientID := "abc", scopes := ["profile", "openid"], redirectURL := "" } }

/-- A second client on a different issuer, for cross-client
interference scenarios. -/
def clientEx2 : Client :=
  { issuer := "https://other.example.org", clientID := "xyz",
    oauth2Config :=
      { clientID := "xyz", scopes := ["openid"], redirectURL := "" } }

/-- An attempt whose single callback request carries a wrong `state`. -/
def envMismatch : LoginEnv :=
  { bindPort := some 54321, browserOk := true, state := "state-1",
    exchange := exchangeEx, requests := [{ state := "state-wrong", code := "XYZ" }] }

/-- An attempt whose single callback request carries the matching
`state` and code `XYZ`. -/
def envMatch : LoginEnv :=
  { bindPort := some 54321, browserOk := true, state := "state-1",
    exchange := exchangeEx, requests := [{ state := "state-1", code := "XYZ" }] }

/-- An attempt during which two well-formed callback requests reach the
listener's port. -/
def envTwoRequests : LoginEnv :=
  { bindPort := some 54321, browserOk := true, state := "state-1",
    exchange := exchangeEx,
    requests := [{ state := "state-1", code := "AAA" }, { state := "state-1", code := "BBB" }] }

/-- An attempt in which `openBrowser` fails. -/
def envBrowserFail : LoginEnv :=
  { bindPort := some 54321, browserOk := false, state := "state-1",
    exchange := exchangeEx, requests := [] }

/-- Environments for the two-goroutine model: goroutine A binds its
listener and then fails at `openBrowser`; goroutine B succeeds at both. -/
def envLeak : Bool → ProcEnv :=
  fun i => cond i { bindOk := true, browserOk := true } { bindOk := true, browserOk := false }

/-- The configuration reached by the schedule A, A, A, B, B under
`envLeak`: A has returned with `BrowserLaunchError`, B has bound its
listener — and both listener sockets are open. -/
def cLeak : TwoLoginConfig :=
  { pcA := .done, pcB := .bound, lockOwner := some true, listenerA := true, listenerB := true }

/-! ### Helper lemmas -/

/-- Reading back a key just written returns the written secret. -/
theorem keyringGet_keyringSet (st : KeyringStore) (service account secret : String) :
    keyringGet (keyringSet st service account secret) service account = .ok secret := by
  simp [keyringGet, keyringSet]

/-- Reading a key just deleted reports `ErrNotFound`. -/
theorem keyringGet_keyringDelete (st : KeyringStore) (service account : String) :
    keyringGet (keyringDelete st service account) service account = .error .notFound := by
  induction st with
  | nil => rfl
  | cons e rest ih =>
      by_cases h : e.1 = (service, account)
      · simpa [keyringDelete, h] using ih
      · simpa [keyringDelete, keyringGet, h] using ih

/-- After dropping leading `'/'` characters, the head is not `'/'`. -/
theorem head_dropWhile_slash (l : List Char) :
    (l.dropWhile (· == '/')).head? ≠ some '/' := by
  induction l with
  | nil => simp
  | cons a l ih =>
      by_cases h : a = '/'
      · simpa [List.dropWhile_cons, h] using ih
      · simp [List.dropWhile_cons, h]

/-- The trimmed issuer never ends in a `'/'`. -/
theorem trimTrailingSlashes_no_trailing (s : String) :
    (trimTrailingSlashes s).data.getLast? ≠ some '/' := by
  show ((s.data.reverse.dropWhile (· == '/')).reverse).getLast? ≠ some '/'
  rw [List.getLast?_reverse]
  exact head_dropWhile_slash _

set_option maxRecDepth 8192 in
/-- Exhaustive check over the finite two-goroutine state space: every
step from a configuration satisfying the mutex-ownership invariant
leads to a configuration satisfying it again. -/
theorem stepKeepsInv_holds :
    ∀ (pe : ProcEnv) (c : TwoLoginConfig) (i : Bool),
      LockInv c → stepKeepsInv pe c i = true := by decide

/-- Step preservation of the mutex-ownership invariant. -/
theorem step_preserves_LockInv (pe : ProcEnv) (c : TwoLoginConfig) (i : Bool)
    (c' : TwoLoginConfig) (hInv : LockInv c) (hstep : step pe c i = some c') :
    LockInv c' := by
  have h := stepKeepsInv_holds pe c i hInv
  unfold stepKeepsInv at h
  rw [hstep] at h
  exact of_decide_eq_true h

/-- The mutex-ownership invariant holds along every schedule. -/
theorem runTrace_LockInv (env : Bool → ProcEnv) :
    ∀ (tr : List Bool) (c₀ c : TwoLoginConfig), LockInv c₀ →
      runTrace env tr c₀ = some c → LockInv c := by
  intro tr
  induction tr with
  | nil =>
      intro c₀ c h hrun
      simp [runTrace] at hrun
      exact hrun ▸ h
  | cons i is ih =>
      intro c₀ c h hrun
      unfold runTrace at hrun
      cases hstep : step (env i) c₀ i with
      | none => rw [hstep] at hrun; simp at hrun
      | some c₁ =>
          rw [hstep] at hrun
          exact ih c₁ c (step_preserves_LockInv _ _ _ _ h hstep) hrun

/-! ### Claims -/

/-- C1: the CSRF gate itself is implemented per request — a callback
whose `state` differs from the attempt's state records
`StateMismatchError` ("state does not match") and never invokes the
code-for-token exchange, while a matching callback invokes the exchange
exactly once with the request's `code` — but `BrowserLogin` never
*returns* `StateMismatchError` (or anything else) on these runs: the
listener is never closed, so `http.Serve` never returns and the outcome
is `blocked`, with the recorded error unreachable dead code
(source lines 164-166). -/
theorem C1_state_gate_recorded_but_never_returned :
    (BrowserLogin clientEx envMismatch []).1 =
      .blocked { httpError := some .stateMismatch, token := none } [] ∧
    (BrowserLogin clientEx envMatch []).1 =
      .blocked { httpError := none, token := some { refreshToken := "refresh-XYZ" } }
        ["XYZ"] :=
  ⟨rfl, rfl⟩

/-- C2: the callback server is not one-shot and `BrowserLogin` does not
return afterwards: with two requests arriving at the attempt's port, the
handler runs for both (the exchange is invoked with `"AAA"` and again
with `"BBB"`, the second token overwriting the first), and the call ends
`blocked` inside `http.Serve` instead of returning the token — the
listener is never shut down. -/
theorem C2_second_request_handled_and_no_return :
    (BrowserLogin clientEx envTwoRequests []).1 =
      .blocked { httpError := none, token := some { refreshToken := "refresh-BBB" } }
        ["AAA", "BBB"] :=
  rfl

/-- C3: `LoginWithCache` propagates *every* keyring failure — including
`ErrNotFound` — to the caller, and the browser-login fallback is dead
code: the fallback-invoked flag is `false` for every possible keyring
result, contradicting the function's own doc comment ("If that fails, a
browser based login ... is triggered").  The `StoreError` half of the
claim does hold: a backend failure is propagated, distinguishable from
`NotFound`. -/
theorem C3_notFound_propagated_no_browser_fallback :
    (∀ b, LoginWithCache (.error .notFound) b =
        (.error (.keyringFailed .notFound), false)) ∧
    (∀ msg b, LoginWithCache (.error (.storeError msg)) b =
        (.error (.keyringFailed (.storeError msg)), false)) ∧
    (∀ r b, (LoginWithCache r b).2 = false) := by
  refine ⟨fun b => rfl, fun msg b => rfl, fun r b => ?_⟩
  cases r <;> rfl

/-- C4 (amended): the per-client mutex does serialize login attempts —
in every reachable configuration of two concurrent `BrowserLogin` calls
on one `Client`, at most one attempt is in flight, so a second attempt
can bind its listener only after the first has returned; the
"two listeners are never bound simultaneously" part of the claim fails
separately because a finished attempt's listener is never closed (see
the counterexample). -/
theorem C4_login_attempts_mutually_exclusive (env : Bool → ProcEnv)
    (c : TwoLoginConfig) (h : Reachable env c) (i j : Bool) (hij : i ≠ j)
    (hi : inFlight c i) : ¬ inFlight c j := by
  obtain ⟨tr, htr⟩ := h
  have hInv := runTrace_LockInv env tr initTwoLogin c (by decide) htr
  intro hj
  have h1 := hInv i hi
  have h2 := hInv j hj
  rw [h1] at h2
  exact hij (Option.some.inj h2)

/-- C4 witness: after goroutine A has acquired the mutex, goroutine B's
attempt is not in flight. -/
theorem C4_login_attempts_mutually_exclusive_witness :
    ¬ inFlight { pcA := .locked, pcB := .start, lockOwner := some false,
                 listenerA := false, listenerB := false } true :=
  C4_login_attempts_mutually_exclusive (fun _ => { bindOk := true, browserOk := true })
    _ ⟨[false], rfl⟩ false true (by decide) (by decide)

/-- C4 counterexample: with goroutine A failing at `openBrowser` and
goroutine B then running, the schedule A, A, A, B, B reaches a
configuration in which both goroutines' listener sockets are open at
once — A's listener was never closed when its attempt failed — refuting
"two listeners are never bound simultaneously" as stated. -/
theorem C4_two_listeners_bound_counterexample :
    runTrace envLeak [false, false, false, true, true] initTwoLogin = some cLeak ∧
    cLeak.listenerA = true ∧ cLeak.listenerB = true :=
  ⟨rfl, rfl, rfl⟩

/-- C5: the `/callback` handler is registered on the process-global
`http.DefaultServeMux` (via `http.HandleFunc`), not on a router scoped
to the attempt: after one client's login attempt the global mux contains
`/callback`, and a different client's later attempt observes that shared
registration and panics instead of running independently. -/
theorem C5_handler_registered_on_process_global_mux :
    (BrowserLogin clientEx envMatch []).2.mux = ["/callback"] ∧
    (BrowserLogin clientEx2 envMatch (BrowserLogin clientEx envMatch []).2.mux).1 =
      .panicked :=
  ⟨rfl, rfl⟩

/-- C6: when `openBrowser` fails, `BrowserLogin` returns the browser
launch error and the deferred `c.m.Unlock()` releases the login lock,
but the attempt's loopback listener is *not* closed before returning —
the source has no `listener.Close()` on any path. -/
theorem C6_browser_failure_leaves_listener_open :
    (BrowserLogin clientEx envBrowserFail []).1 = .browserLaunchFailed ∧
    (BrowserLogin clientEx envBrowserFail []).2.lockReleased = true ∧
    (BrowserLogin clientEx envBrowserFail []).2.listenerOpen = true :=
  ⟨rfl, rfl, rfl⟩

/-- C7: `StoreTokenInCache` on a client whose transport is not the
managed `*oauth2.Transport` returns `ErrNotOAuth2Transport` and leaves
the credential store exactly unchanged; on the managed transport whose
source yields a token, it succeeds and the store afterwards maps
(issuer, clientID) to that token's refresh token. -/
theorem C7_unsupported_transport_store_untouched :
    (∀ (c : Client) (st : KeyringStore),
        StoreTokenInCache c .otherTransport st = (.error .errNotOAuth2Transport, st)) ∧
    (∀ (c : Client) (st : KeyringStore) (token : OAuth2Token),
        (StoreTokenInCache c (.oauth2Transport (.ok token)) st).1 = .ok () ∧
        keyringGet (StoreTokenInCache c (.oauth2Transport (.ok token)) st).2
            c.issuer c.clientID = .ok token.refreshToken) := by
  refine ⟨fun c st => rfl, fun c st token => ⟨rfl, ?_⟩⟩
  simp [StoreTokenInCache, keyringGet, keyringSet]

/-- C8: a successfully constructed client has the issuer with all
trailing slashes stripped (and hence not ending in `'/'`), its scope
list's set of elements is the given scopes united with `{"openid"}`
(so `"openid"` is always present), and any login attempt that binds a
listener on port `p` sets the client's redirect URI to
`http://localhost:p/callback`. -/
theorem C8_construction (discoveryOk : String → Bool) (issuer clientID : String)
    (scopes : List String) (c : Client)
    (h : NewWithContext discoveryOk issuer clientID scopes = some c) :
    c.issuer = trimTrailingSlashes issuer ∧
    c.issuer.data.getLast? ≠ some '/' ∧
    c.oauth2Config.scopes.toFinset = scopes.toFinset ∪ {"openid"} ∧
    "openid" ∈ c.oauth2Config.scopes ∧
    ∀ (env : LoginEnv) (mux : List String) (port : Nat), env.bindPort = some port →
      (BrowserLogin c env mux).2.clientAfter.oauth2Config.redirectURL =
        "http://localhost:" ++ toString port ++ "/callback" := by
  simp only [NewWithContext] at h
  split at h
  · simp only [Option.some.injEq] at h
    subst h
    refine ⟨rfl, trimTrailingSlashes_no_trailing issuer, ?_, by simp, ?_⟩
    · simp
    · intro env mux port hport
      unfold BrowserLogin
      rw [hport]
      by_cases hb : env.browserOk <;> by_cases hm : "/callback" ∈ mux <;> simp [hb, hm]
  · exact Option.noConfusion h

/-- C8 witness: constructing the client for issuer
`https://example.com/`, client id `abc` and scope `profile` gives the
scope set `{profile, openid}`, and its login attempt bound on port 54321
uses redirect URI `http://localhost:54321/callback`. -/
theorem C8_construction_witness :
    clientEx.oauth2Config.scopes.toFinset = ["profile"].toFinset ∪ {"openid"} ∧
    (BrowserLogin clientEx envMatch []).2.clientAfter.oauth2Config.redirectURL =
      "http://localhost:54321/callback" :=
  ⟨(C8_construction (fun _ => true) "https://example.com/" "abc" ["profile"]
      clientEx rfl).2.2.1,
   (C8_construction (fun _ => true) "https://example.com/" "abc" ["profile"]
      clientEx rfl).2.2.2.2 envMatch [] 54321 rfl⟩

/-- C9: credential round trip through the package's own wrappers, over
the per-key map model of the OS store: storing a refresh token `T` via
`StoreTokenInCache` and then reading via `getTokenFromKeyring` yields a
token holding exactly `T`; `DeleteTokenFromKeyring` followed by a read
yields `(nil, ErrNotFound)`. -/
theorem C9_credential_roundtrip :
    (∀ (c : Client) (st : KeyringStore) (T : String),
        getTokenFromKeyring
          (keyringGet
            (StoreTokenInCache c (.oauth2Transport (.ok { refreshToken := T })) st).2
            c.issuer c.clientID) =
          (some { refreshToken := T }, none)) ∧
    (∀ (c : Client) (st : KeyringStore),
        getTokenFromKeyring
          (keyringGet (DeleteTokenFromKeyring c st) c.issuer c.clientID) =
          (none, some .notFound)) := by
  constructor
  · intro c st T
    simp [StoreTokenInCache, keyringSet, keyringGet, getTokenFromKeyring]
  · intro c st
    simp [DeleteTokenFromKeyring, keyringGet_keyringDelete, getTokenFromKeyring]

/-- C10: once one `BrowserLogin` call (on any client) has reached its
`http.HandleFunc "/callback"` registration on the process-global
`http.DefaultServeMux`, every later `BrowserLogin` call — on the same or
any other client — that gets past its listener bind and browser launch
panics on the duplicate pattern registration instead of performing a
login attempt. -/
theorem C10_second_browser_login_panics (c₁ c₂ : Client) (env₁ env₂ : LoginEnv)
    (mux₀ : List String) (p₁ p₂ : Nat)
    (h₀ : "/callback" ∉ mux₀)
    (h₁ : env₁.bindPort = some p₁) (h₂ : env₁.browserOk = true)
    (h₃ : env₂.bindPort = some p₂) (h₄ : env₂.browserOk = true) :
    (BrowserLogin c₂ env₂ (BrowserLogin c₁ env₁ mux₀).2.mux).1 = .panicked := by
  have hmux : (BrowserLogin c₁ env₁ mux₀).2.mux = "/callback" :: mux₀ := by
    unfold BrowserLogin
    rw [h₁]
    simp [h₂, h₀]
  rw [hmux]
  unfold BrowserLogin
  rw [h₃]
  simp [h₄]

/-- C10 witness: a first login attempt by one client followed by a
second attempt by another client, both with working bind and browser:
the second call panics. -/
theorem C10_second_browser_login_panics_witness :
    (BrowserLogin clientEx2 envMatch (BrowserLogin clientEx envMatch []).2.mux).1 =
      .panicked :=
  C10_second_browser_login_panics clientEx clientEx2 envMatch envMatch [] 54321 54321
    (by simp) rfl rfl rfl rfl

end OidcAuth
